import Mathlib

/-!
# gocb `cluster.go`: connection establishment and session configuration

A shallow embedding of `cluster.go` and theorems about it.

Conventions of the embedding.

* A Go `string` that is only compared and concatenated (scheme, host name,
  endpoint) is a Lean `String`.  A credential (bucket, user name, password),
  which the code converts with `[]byte(..)` or hands on as it is, is kept at
  the byte level, as a `List UInt8`, since a Go string is an arbitrary byte
  sequence.
* A loop `for _, x := range xs { ys = append(ys, f x) }` is a left fold that
  appends one element per step.
* A method with receiver `c *Cluster` takes the cluster and returns its result
  together with the cluster after the call.
* A run-time panic is `Except.error` carrying the panic text.
* The Go type `error` is a type parameter `ε`; `nil` is `none`.
-/

namespace Gocb

/-! ## Data model -/

/-- One entry of `connSpec.Hosts`.  The declaration of the type lies outside
`cluster.go`; the code reads the fields `Host` and `Port`, compares `Port`
with `0`, assigns integer constants to a copy of it and prints it with `%d`,
so `Port` is an `Int`, which covers every Go integer type. -/
structure connSpecHost where
  Host : String
  Port : Int
deriving DecidableEq, Repr

/-- The connection spec as far as `cluster.go` reads it: `Scheme` and `Hosts`. -/
structure connSpec where
  Scheme : String
  Hosts : List connSpecHost
deriving DecidableEq, Repr

/-- Go `time.Duration`: a count of nanoseconds. -/
abbrev Duration := Int

/-- Go `time.Millisecond`. -/
def Millisecond : Duration := 1000000

/-- Go `type Cluster struct`. -/
structure Cluster where
  spec : connSpec
  connectTimeout : Duration
  serverConnectTimeout : Duration
deriving DecidableEq, Repr

/-! ## `specToHosts` -/

/-- Go `fmt.Sprintf("%s:%d", host, port)`. -/
def Sprintf (host : String) (port : Int) : String :=
  host ++ ":" ++ toString port

/-- The value of `cccpPort` at the end of one loop iteration of `specToHosts`
(lines 53, 55-61). -/
def cccpPort (isHttpHosts isSslHosts : Bool) (port : Int) : Int :=
  if isHttpHosts || port == 0 then
    if !isSslHosts then 11210 else 11207
  else port

/-- The value of `httpPort` at the end of one loop iteration of `specToHosts`
(lines 54, 62-68). -/
def httpPort (isHttpHosts isSslHosts : Bool) (port : Int) : Int :=
  if !isHttpHosts || port == 0 then
    if !isSslHosts then 8091 else 18091
  else port

/-- One iteration of the loop of `specToHosts` on the pair
`(memdHosts, httpHosts)`. -/
def specToHostsStep (isHttpHosts isSslHosts : Bool)
    (acc : List String × List String) (specHost : connSpecHost) :
    List String × List String :=
  (acc.1 ++ [Sprintf specHost.Host (cccpPort isHttpHosts isSslHosts specHost.Port)],
   acc.2 ++ [Sprintf specHost.Host (httpPort isHttpHosts isSslHosts specHost.Port)])

/-- Go `specToHosts`: the KV endpoints, the management endpoints and the
encryption flag of a connection spec. -/
def specToHosts (spec : connSpec) : List String × List String × Bool :=
  let isHttpHosts := spec.Scheme == "http"
  let isSslHosts := spec.Scheme == "couchbases"
  let r := spec.Hosts.foldl (specToHostsStep isHttpHosts isSslHosts) ([], [])
  (r.1, r.2, isSslHosts)

/-! ## The authentication callback -/

/-- Go `[]byte(s)` for a string literal `s`: its UTF-8 bytes. -/
def bytesOf (s : String) : List UInt8 :=
  s.toUTF8.data.toList

/-- Go `make([]byte, n)`: `n` zero bytes. -/
def make (n : Nat) : List UInt8 :=
  List.replicate n 0

/-- Go `a[i] = v` on a byte slice; an index outside the slice panics. -/
def setIndex (a : List UInt8) (i : Nat) (v : UInt8) : Except String (List UInt8) :=
  if i < a.length then .ok (a.set i v) else .error "index out of range"

/-- Go `copy(dst[off:], src)`: slicing panics when `off` exceeds the length of
`dst`; otherwise `min (len(dst) - off) (len(src))` bytes of `src` overwrite
`dst` from position `off` on. -/
def copyAt (dst : List UInt8) (off : Nat) (src : List UInt8) : Except String (List UInt8) :=
  if off ≤ dst.length then
    let n := min (dst.length - off) src.length
    .ok (dst.take off ++ src.take n ++ dst.drop (off + n))
  else .error "slice bounds out of range"

/-- Lines 80-86 of `makeAgentConfig`: the buffer `authData` the callback
builds from `bucket` and `password`. -/
def buildAuthData (bucket password : List UInt8) : Except String (List UInt8) := do
  let userBuf := bucket
  let passBuf := password
  let authData := make (1 + userBuf.length + 1 + passBuf.length)
  let authData ← setIndex authData 0 0
  let authData ← copyAt authData 1 userBuf
  let authData ← setIndex authData (1 + userBuf.length) 0
  let authData ← copyAt authData (1 + userBuf.length + 1) passBuf
  pure authData

/-- Go interface `gocbcore.AuthClient`, its method `ExecSaslAuth(k, v, deadline)`.
The exchange is network I/O: it is a transition on a connection state `σ` that
also yields the server's reply and an error.  `τ` stands for `time.Time`. -/
structure gocbcore.AuthClient (σ ε τ : Type) where
  ExecSaslAuth : List UInt8 → List UInt8 → τ → σ → (List UInt8 × Option ε) × σ

/-- The closure `authFn` of `makeAgentConfig` (lines 78-92), with the captured
`bucket` and `password` as its first arguments. -/
def authFn {σ ε τ : Type} (bucket password : List UInt8)
    (srv : gocbcore.AuthClient σ ε τ) (deadline : τ) (s : σ) :
    Except String (Option ε × σ) := do
  let authData ← buildAuthData bucket password
  let r := srv.ExecSaslAuth (bytesOf "PLAIN") authData deadline s
  let err := r.1.2
  pure (err, r.2)

/-! ## Session configuration -/

/-- Go `tls.Config`, the one field `cluster.go` sets; every other field keeps
its zero value. -/
structure tls.Config where
  InsecureSkipVerify : Bool
deriving DecidableEq, Repr

/-- Go `gocbcore.AgentConfig`, the fields `makeAgentConfig` fills in. -/
structure gocbcore.AgentConfig (σ ε τ : Type) where
  MemdAddrs : List String
  HttpAddrs : List String
  TlsConfig : Option tls.Config
  BucketName : List UInt8
  Password : List UInt8
  AuthHandler : gocbcore.AuthClient σ ε τ → τ → σ → Except String (Option ε × σ)
  ConnectTimeout : Duration
  ServerConnectTimeout : Duration

/-- Go `(c *Cluster) makeAgentConfig(bucket, password)`. -/
def Cluster.makeAgentConfig {σ ε τ : Type} (c : Cluster) (bucket password : List UInt8) :
    gocbcore.AgentConfig σ ε τ × Cluster :=
  let authFn := authFn bucket password
  let (memdHosts, httpHosts, isSslHosts) := specToHosts c.spec
  let tlsConfig : Option tls.Config :=
    if isSslHosts then some { InsecureSkipVerify := true } else none
  ({ MemdAddrs := memdHosts
     HttpAddrs := httpHosts
     TlsConfig := tlsConfig
     BucketName := bucket
     Password := password
     AuthHandler := authFn
     ConnectTimeout := c.connectTimeout
     ServerConnectTimeout := c.serverConnectTimeout }, c)

/-! ## The management handle -/

/-- Go `http.Transport`, the one field `cluster.go` sets. -/
structure http.Transport where
  TLSClientConfig : Option tls.Config
deriving DecidableEq, Repr

/-- Go `http.Client`, the one field `cluster.go` sets. -/
structure http.Client where
  Transport : http.Transport
deriving DecidableEq, Repr

/-- Go `ClusterManager`, the fields `Manager` fills in. -/
structure ClusterManager where
  hosts : List String
  username : List UInt8
  password : List UInt8
  httpCli : http.Client
deriving DecidableEq, Repr

/-- One iteration of the loop of `Manager` on `mgmtHosts` (lines 124-130). -/
def ManagerStep (isSslHosts : Bool) (mgmtHosts : List String) (host : String) : List String :=
  if isSslHosts then mgmtHosts ++ ["https://" ++ host]
  else mgmtHosts ++ ["http://" ++ host]

/-- Go `(c *Cluster) Manager(username, password)`. -/
def Cluster.Manager (c : Cluster) (username password : List UInt8) : ClusterManager × Cluster :=
  let (_, httpHosts, isSslHosts) := specToHosts c.spec
  let mgmtHosts := httpHosts.foldl (ManagerStep isSslHosts) []
  let tlsConfig : Option tls.Config :=
    if isSslHosts then some { InsecureSkipVerify := true } else none
  ({ hosts := mgmtHosts
     username := username
     password := password
     httpCli := { Transport := { TLSClientConfig := tlsConfig } } }, c)

/-! ## `Connect` -/

/-- Go `Connect(connSpecStr)`.  The parser `parseConnSpec` and the resolver
`csResolveDnsSrv` are defined outside `cluster.go` and are parameters here:
the parser maps the string to a spec, the resolver performs a DNS lookup, a
transition on the state `ω` of the network, and rewrites the spec it is handed
by pointer.  The result pairs what `Connect` returns, or the panic, with the
network state after the call. -/
def Connect {ω : Type} (ε : Type) (parseConnSpec : String → connSpec)
    (csResolveDnsSrv : connSpec → ω → connSpec × ω) (connSpecStr : String) (w : ω) :
    Except String (Cluster × Option ε) × ω :=
  let spec := parseConnSpec connSpecStr
  let spec := if spec.Scheme == "" then { spec with Scheme := "http" } else spec
  if spec.Scheme != "couchbase" && spec.Scheme != "couchbases" && spec.Scheme != "http" then
    (.error "Unsupported Scheme!", w)
  else
    let (spec, w) := csResolveDnsSrv spec w
    let cluster : Cluster :=
      { spec := spec
        connectTimeout := 60000 * Millisecond
        serverConnectTimeout := 7000 * Millisecond }
    (.ok (cluster, none), w)

/-! ## Reading a credential buffer back

The reader of the buffer is the server, not this package.  The spec describes
the buffer as "a null-separated triple with an empty authorization-identity
field": the first field ends at the first zero byte, the second at the next one,
and the third is what remains. -/

/-- The field that ends at the first zero byte of `buf`, and what follows that
byte; `none` when `buf` has no zero byte. -/
def splitAtNul : List UInt8 → Option (List UInt8 × List UInt8)
  | [] => none
  | b :: rest =>
    if b = 0 then some ([], rest)
    else
      match splitAtNul rest with
      | none => none
      | some (field, tail) => some (b :: field, tail)

/-- The spec's decoding of a credential buffer into authorization field,
principal and secret. -/
def decodePlain (buf : List UInt8) : Option (List UInt8 × List UInt8 × List UInt8) :=
  match splitAtNul buf with
  | none => none
  | some (authz, rest) =>
    match splitAtNul rest with
    | none => none
    | some (principal, secret) => some (authz, principal, secret)

/-- A client that records every exchange it is asked for: its state is the
list of the calls made so far, and it answers with the fixed error `e`. -/
def recordingClient {ε τ : Type} (e : Option ε) :
    gocbcore.AuthClient (List (List UInt8 × List UInt8 × τ)) ε τ where
  ExecSaslAuth := fun k v deadline calls => (([], e), calls ++ [(k, v, deadline)])

/-! ## Timeouts -/

/-- Go `time.Second`. -/
def Second : Duration := 1000 * Millisecond

/-- Go `(c *Cluster) ConnectTimeout()`. -/
def Cluster.ConnectTimeout (c : Cluster) : Duration × Cluster :=
  (c.connectTimeout, c)

/-- Go `(c *Cluster) SetConnectTimeout(timeout)`: the cluster after the call. -/
def Cluster.SetConnectTimeout (c : Cluster) (timeout : Duration) : Cluster :=
  { c with connectTimeout := timeout }

/-- Go `(c *Cluster) ServerConnectTimeout()`. -/
def Cluster.ServerConnectTimeout (c : Cluster) : Duration × Cluster :=
  (c.serverConnectTimeout, c)

/-- Go `(c *Cluster) SetServerConnectTimeout(timeout)`: the cluster after the
call. -/
def Cluster.SetServerConnectTimeout (c : Cluster) (timeout : Duration) : Cluster :=
  { c with serverConnectTimeout := timeout }

/-- Modelled from the spec: `csResolveDnsSrv` is defined outside `cluster.go`;
by section 4.2 of the spec it either replaces the host list of the spec it is
handed or leaves that spec unchanged, so it keeps the scheme. -/
def keepsScheme {ω : Type} (csResolveDnsSrv : connSpec → ω → connSpec × ω) : Prop :=
  ∀ (spec : connSpec) (w : ω), (csResolveDnsSrv spec w).1.Scheme = spec.Scheme

/-! ## The streaming bucket -/

/-- Go `type StreamingBucket struct`; `α` stands for `gocbcore.Agent`, and the
pointer `client` may be `nil`. -/
structure StreamingBucket (α : Type) where
  client : Option α

/-- Go `(b *StreamingBucket) IoRouter()`. -/
def StreamingBucket.IoRouter {α : Type} (b : StreamingBucket α) :
    Option α × StreamingBucket α :=
  (b.client, b)

/-- Go `(c *Cluster) OpenStreamingBucket(streamName, bucket, password)`.  The
constructor `gocbcore.CreateDcpAgent` is defined outside `cluster.go` and is a
parameter: it opens connections, a transition on the state `ω` of the network,
and returns an agent pointer and an error.  The result is what the method
returns, the cluster after the call and the network state after the call. -/
def Cluster.OpenStreamingBucket {σ ε τ ω α : Type}
    (CreateDcpAgent : gocbcore.AgentConfig σ ε τ → String → ω → (Option α × Option ε) × ω)
    (c : Cluster) (streamName : String) (bucket password : List UInt8) (w : ω) :
    (Option (StreamingBucket α) × Option ε) × Cluster × ω :=
  let (agentConfig, c) := c.makeAgentConfig bucket password
  let ((cli, err), w) := CreateDcpAgent agentConfig streamName w
  match err with
  | some e => ((none, some e), c, w)
  | none => ((some { client := cli }, none), c, w)

/-- A constructor that records every call made to it: the state is the list of
the calls so far, each with the bucket name, the password and the management
endpoints of the configuration and the stream name; it answers `answer`. -/
def recordingCreateDcpAgent {σ ε τ α : Type} (answer : Option α × Option ε) :
    gocbcore.AgentConfig σ ε τ → String →
      List (List UInt8 × List UInt8 × List String × String) →
      (Option α × Option ε) × List (List UInt8 × List UInt8 × List String × String) :=
  fun cfg streamName calls =>
    (answer, calls ++ [(cfg.BucketName, cfg.Password, cfg.HttpAddrs, streamName)])

/-! ## Auxiliary facts about the loops -/

/-- The KV endpoint `specToHosts` computes for one host entry. -/
def kvEndpoint (isHttpHosts isSslHosts : Bool) (specHost : connSpecHost) : String :=
  Sprintf specHost.Host (cccpPort isHttpHosts isSslHosts specHost.Port)

/-- The management endpoint `specToHosts` computes for one host entry. -/
def mgmtEndpoint (isHttpHosts isSslHosts : Bool) (specHost : connSpecHost) : String :=
  Sprintf specHost.Host (httpPort isHttpHosts isSslHosts specHost.Port)

theorem foldl_specToHostsStep (a b : Bool) (hosts : List connSpecHost)
    (acc : List String × List String) :
    hosts.foldl (specToHostsStep a b) acc =
      (acc.1 ++ hosts.map (kvEndpoint a b), acc.2 ++ hosts.map (mgmtEndpoint a b)) := by
  induction hosts generalizing acc with
  | nil => simp
  | cons x xs ih =>
    simp only [List.foldl_cons, ih, specToHostsStep, List.map_cons, List.append_assoc,
      List.singleton_append, kvEndpoint, mgmtEndpoint]

theorem specToHosts_kv (spec : connSpec) :
    (specToHosts spec).1 =
      spec.Hosts.map (kvEndpoint (spec.Scheme == "http") (spec.Scheme == "couchbases")) := by
  simp [specToHosts, foldl_specToHostsStep]

theorem specToHosts_mgmt (spec : connSpec) :
    (specToHosts spec).2.1 =
      spec.Hosts.map (mgmtEndpoint (spec.Scheme == "http") (spec.Scheme == "couchbases")) := by
  simp [specToHosts, foldl_specToHostsStep]

theorem specToHosts_ssl (spec : connSpec) :
    (specToHosts spec).2.2 = (spec.Scheme == "couchbases") := by
  simp [specToHosts]

theorem specToHosts_kv_at (spec : connSpec) (i : Nat) (h : connSpecHost)
    (hi : spec.Hosts[i]? = some h) :
    (specToHosts spec).1[i]? =
      some (kvEndpoint (spec.Scheme == "http") (spec.Scheme == "couchbases") h) := by
  simp [specToHosts_kv, List.getElem?_map, hi]

theorem specToHosts_mgmt_at (spec : connSpec) (i : Nat) (h : connSpecHost)
    (hi : spec.Hosts[i]? = some h) :
    (specToHosts spec).2.1[i]? =
      some (mgmtEndpoint (spec.Scheme == "http") (spec.Scheme == "couchbases") h) := by
  simp [specToHosts_mgmt, List.getElem?_map, hi]

theorem Sprintf_11210 (host : String) : Sprintf host 11210 = host ++ ":11210" := by
  show host ++ ":" ++ "11210" = host ++ ":11210"
  rw [String.append_assoc]; rfl

theorem Sprintf_11207 (host : String) : Sprintf host 11207 = host ++ ":11207" := by
  show host ++ ":" ++ "11207" = host ++ ":11207"
  rw [String.append_assoc]; rfl

theorem Sprintf_8091 (host : String) : Sprintf host 8091 = host ++ ":8091" := by
  show host ++ ":" ++ "8091" = host ++ ":8091"
  rw [String.append_assoc]; rfl

theorem Sprintf_18091 (host : String) : Sprintf host 18091 = host ++ ":18091" := by
  show host ++ ":" ++ "18091" = host ++ ":18091"
  rw [String.append_assoc]; rfl

/-! ## Default ports (C1) -/

/-- C1: for every connection spec and every host entry whose port is unset
(`0`): under the scheme `couchbase` or `http` the KV endpoint at the entry's
position is `<host>:11210` and the management endpoint `<host>:8091`; under
`couchbases` they are `<host>:11207` and `<host>:18091`. -/
theorem specToHosts_default_ports (spec : connSpec) (i : Nat) (h : connSpecHost)
    (hi : spec.Hosts[i]? = some h) (hp : h.Port = 0) :
    ((spec.Scheme = "couchbase" ∨ spec.Scheme = "http") →
      (specToHosts spec).1[i]? = some (h.Host ++ ":11210") ∧
      (specToHosts spec).2.1[i]? = some (h.Host ++ ":8091")) ∧
    (spec.Scheme = "couchbases" →
      (specToHosts spec).1[i]? = some (h.Host ++ ":11207") ∧
      (specToHosts spec).2.1[i]? = some (h.Host ++ ":18091")) := by
  rw [specToHosts_kv_at spec i h hi, specToHosts_mgmt_at spec i h hi]
  refine ⟨?_, ?_⟩
  · rintro (hs | hs) <;>
      simp [kvEndpoint, mgmtEndpoint, cccpPort, httpPort, hp, hs, Sprintf_11210, Sprintf_8091]
  · intro hs
    simp [kvEndpoint, mgmtEndpoint, cccpPort, httpPort, hp, hs, Sprintf_11207, Sprintf_18091]

/-- C1, at the spec `couchbases://10.0.0.1`: the lists are
`["10.0.0.1:11207"]` and `["10.0.0.1:18091"]`. -/
theorem specToHosts_default_ports_witness :
    (specToHosts ⟨"couchbases", [⟨"10.0.0.1", 0⟩]⟩).1 = ["10.0.0.1:11207"] ∧
    (specToHosts ⟨"couchbases", [⟨"10.0.0.1", 0⟩]⟩).2.1 = ["10.0.0.1:18091"] ∧
    (specToHosts ⟨"couchbases", [⟨"10.0.0.1", 0⟩]⟩).1[0]? = some ("10.0.0.1" ++ ":11207") ∧
    (specToHosts ⟨"couchbases", [⟨"10.0.0.1", 0⟩]⟩).2.1[0]? = some ("10.0.0.1" ++ ":18091") :=
  ⟨by decide, by decide,
    (specToHosts_default_ports ⟨"couchbases", [⟨"10.0.0.1", 0⟩]⟩ 0 ⟨"10.0.0.1", 0⟩ rfl rfl).2 rfl⟩

/-! ## Explicit ports (C2, C3) -/

/-- C2: under the scheme `http`, for every host entry with an explicit
(non-zero) port `p`, the management endpoint at the entry's position is
`<host>:p`; and whatever the port of the entry, the KV endpoint is
`<host>:11210`. -/
theorem specToHosts_http_explicit_port (spec : connSpec) (i : Nat) (h : connSpecHost)
    (hi : spec.Hosts[i]? = some h) (hs : spec.Scheme = "http") :
    (specToHosts spec).1[i]? = some (h.Host ++ ":11210") ∧
    (h.Port ≠ 0 →
      (specToHosts spec).2.1[i]? = some (h.Host ++ ":" ++ toString h.Port)) := by
  rw [specToHosts_kv_at spec i h hi, specToHosts_mgmt_at spec i h hi]
  refine ⟨?_, ?_⟩
  · simp [kvEndpoint, cccpPort, hs, Sprintf_11210]
  · intro hp
    simp [mgmtEndpoint, httpPort, hs, hp, Sprintf]

/-- C2, at the spec `http://10.0.0.1:9000`: KV `10.0.0.1:11210`, management
`10.0.0.1:9000`. -/
theorem specToHosts_http_explicit_port_witness :
    (specToHosts ⟨"http", [⟨"10.0.0.1", 9000⟩]⟩).1 = ["10.0.0.1:11210"] ∧
    (specToHosts ⟨"http", [⟨"10.0.0.1", 9000⟩]⟩).2.1 = ["10.0.0.1:9000"] ∧
    (specToHosts ⟨"http", [⟨"10.0.0.1", 9000⟩]⟩).1[0]? = some ("10.0.0.1" ++ ":11210") ∧
    (specToHosts ⟨"http", [⟨"10.0.0.1", 9000⟩]⟩).2.1[0]? =
      some ("10.0.0.1" ++ ":" ++ toString (9000 : Int)) :=
  have t := specToHosts_http_explicit_port ⟨"http", [⟨"10.0.0.1", 9000⟩]⟩ 0
    ⟨"10.0.0.1", 9000⟩ rfl rfl
  ⟨by decide, by decide, t.1, t.2 (by decide)⟩

/-- C3: under the scheme `couchbase` or `couchbases`, for every host entry
with an explicit non-zero port `p`, the KV endpoint at the entry's position is
`<host>:p`, and the management endpoint is `<host>:8091` for `couchbase` and
`<host>:18091` for `couchbases`. -/
theorem specToHosts_kv_explicit_port (spec : connSpec) (i : Nat) (h : connSpecHost)
    (hi : spec.Hosts[i]? = some h)
    (hs : spec.Scheme = "couchbase" ∨ spec.Scheme = "couchbases") (hp : h.Port ≠ 0) :
    (specToHosts spec).1[i]? = some (h.Host ++ ":" ++ toString h.Port) ∧
    (spec.Scheme = "couchbase" → (specToHosts spec).2.1[i]? = some (h.Host ++ ":8091")) ∧
    (spec.Scheme = "couchbases" → (specToHosts spec).2.1[i]? = some (h.Host ++ ":18091")) := by
  rw [specToHosts_kv_at spec i h hi, specToHosts_mgmt_at spec i h hi]
  rcases hs with hs | hs
  · simp [kvEndpoint, mgmtEndpoint, cccpPort, httpPort, hs, hp, Sprintf, Sprintf_8091]
    show h.Host ++ ":" ++ "8091" = h.Host ++ ":8091"
    rw [String.append_assoc]; rfl
  · simp [kvEndpoint, mgmtEndpoint, cccpPort, httpPort, hs, hp, Sprintf, Sprintf_18091]
    show h.Host ++ ":" ++ "18091" = h.Host ++ ":18091"
    rw [String.append_assoc]; rfl

/-- C3, at the spec `couchbase://10.0.0.1,10.0.0.2:11300`: KV
`["10.0.0.1:11210", "10.0.0.2:11300"]`, management
`["10.0.0.1:8091", "10.0.0.2:8091"]`. -/
theorem specToHosts_kv_explicit_port_witness :
    (specToHosts ⟨"couchbase", [⟨"10.0.0.1", 0⟩, ⟨"10.0.0.2", 11300⟩]⟩).1 =
      ["10.0.0.1:11210", "10.0.0.2:11300"] ∧
    (specToHosts ⟨"couchbase", [⟨"10.0.0.1", 0⟩, ⟨"10.0.0.2", 11300⟩]⟩).2.1 =
      ["10.0.0.1:8091", "10.0.0.2:8091"] ∧
    (specToHosts ⟨"couchbase", [⟨"10.0.0.1", 0⟩, ⟨"10.0.0.2", 11300⟩]⟩).1[1]? =
      some ("10.0.0.2" ++ ":" ++ toString (11300 : Int)) ∧
    (specToHosts ⟨"couchbase", [⟨"10.0.0.1", 0⟩, ⟨"10.0.0.2", 11300⟩]⟩).2.1[1]? =
      some ("10.0.0.2" ++ ":8091") :=
  have t := specToHosts_kv_explicit_port
    ⟨"couchbase", [⟨"10.0.0.1", 0⟩, ⟨"10.0.0.2", 11300⟩]⟩ 1 ⟨"10.0.0.2", 11300⟩ rfl
    (Or.inl rfl) (by decide)
  ⟨by decide, by decide, t.1, t.2.1 rfl⟩

/-! ## Length and order (C4) -/

/-- C4: the KV list and the management list of `specToHosts` each have as many
entries as `spec.Hosts`, and at every index both entries are the host name at
that index of `spec.Hosts`, then `:`, then a port in decimal. -/
theorem specToHosts_length_order (spec : connSpec) :
    (specToHosts spec).1.length = spec.Hosts.length ∧
    (specToHosts spec).2.1.length = spec.Hosts.length ∧
    ∀ (i : Nat) (h : connSpecHost), spec.Hosts[i]? = some h →
      (∃ kv, (specToHosts spec).1[i]? = some kv ∧ (h.Host ++ ":").data <+: kv.data) ∧
      (∃ mg, (specToHosts spec).2.1[i]? = some mg ∧ (h.Host ++ ":").data <+: mg.data) := by
  refine ⟨by simp [specToHosts_kv], by simp [specToHosts_mgmt], ?_⟩
  intro i h hi
  rw [specToHosts_kv_at spec i h hi, specToHosts_mgmt_at spec i h hi]
  refine ⟨⟨_, rfl, ⟨(toString (cccpPort (spec.Scheme == "http")
      (spec.Scheme == "couchbases") h.Port)).data, ?_⟩⟩,
    ⟨_, rfl, ⟨(toString (httpPort (spec.Scheme == "http")
      (spec.Scheme == "couchbases") h.Port)).data, ?_⟩⟩⟩
  · simp [kvEndpoint, Sprintf]
  · simp [mgmtEndpoint, Sprintf]

/-- C4, at a spec that names the same host twice: both entries are kept, in
the order of the input. -/
theorem specToHosts_length_order_witness :
    (specToHosts ⟨"couchbase", [⟨"b", 1⟩, ⟨"a", 0⟩, ⟨"b", 1⟩]⟩).1 = ["b:1", "a:11210", "b:1"] ∧
    (specToHosts ⟨"couchbase", [⟨"b", 1⟩, ⟨"a", 0⟩, ⟨"b", 1⟩]⟩).2.1 =
      ["b:8091", "a:8091", "b:8091"] ∧
    (specToHosts ⟨"couchbase", [⟨"b", 1⟩, ⟨"a", 0⟩, ⟨"b", 1⟩]⟩).1.length = 3 ∧
    (specToHosts ⟨"couchbase", [⟨"b", 1⟩, ⟨"a", 0⟩, ⟨"b", 1⟩]⟩).2.1.length = 3 :=
  have t := specToHosts_length_order ⟨"couchbase", [⟨"b", 1⟩, ⟨"a", 0⟩, ⟨"b", 1⟩]⟩
  ⟨by decide, by decide, t.1, t.2.1⟩

/-! ## The credential buffer (C5, C6) -/

theorem setIndex_mid (pre post : List UInt8) (x v : UInt8) (i : Nat) (hi : i = pre.length) :
    setIndex (pre ++ x :: post) i v = .ok (pre ++ v :: post) := by
  subst hi
  simp [setIndex]

theorem copyAt_mid (pre mid post src : List UInt8) (off : Nat) (hoff : off = pre.length)
    (hlen : mid.length = src.length) :
    copyAt (pre ++ mid ++ post) off src = .ok (pre ++ src ++ post) := by
  subst hoff
  have h1 : (pre ++ mid ++ post).length - pre.length = mid.length + post.length := by
    simp [List.length_append]
  have h2 : min ((pre ++ mid ++ post).length - pre.length) src.length = src.length := by
    rw [h1]; omega
  simp only [copyAt]
  rw [if_pos (by simp [List.length_append])]
  simp only [h2]
  congr 1
  rw [List.append_assoc pre mid post, List.take_left' rfl, List.take_length,
    List.drop_append_eq_append_drop]
  simp [List.append_assoc, ← hlen]

theorem make_split (u p : Nat) :
    make (1 + u + 1 + p) =
      [] ++ (0 : UInt8) :: (List.replicate u 0 ++ 0 :: List.replicate p 0) := by
  simp only [make, List.replicate_add, List.replicate_one, List.append_assoc,
    List.singleton_append, List.nil_append, List.cons_append]

/-- The buffer of the callback: no index is out of range, and the result is
the byte `0`, the bucket, the byte `0`, the password. -/
theorem buildAuthData_eq (bucket password : List UInt8) :
    buildAuthData bucket password = .ok (0 :: bucket ++ 0 :: password) := by
  unfold buildAuthData
  simp only [make_split]
  rw [setIndex_mid [] _ 0 0 0 rfl]
  simp only [bind, Except.bind]
  have e1 : ([] ++ (0 : UInt8) ::
      (List.replicate bucket.length 0 ++ 0 :: List.replicate password.length 0))
      = [0] ++ List.replicate bucket.length 0 ++ (0 :: List.replicate password.length 0) := by
    simp
  rw [e1, copyAt_mid [0] _ _ bucket 1 rfl (by simp)]
  simp only []
  have e2 : [0] ++ bucket ++ (0 :: List.replicate password.length 0)
      = ([0] ++ bucket) ++ (0 : UInt8) :: List.replicate password.length 0 := by simp
  rw [e2, setIndex_mid ([0] ++ bucket) _ 0 0 _ (by simp; omega)]
  simp only []
  have e3 : ([0] ++ bucket) ++ (0 : UInt8) :: List.replicate password.length 0
      = ([0] ++ bucket ++ [0]) ++ List.replicate password.length 0 ++ [] := by simp
  rw [e3, copyAt_mid ([0] ++ bucket ++ [0]) _ [] password _ (by simp; omega) (by simp)]
  simp [pure, Except.pure]

theorem splitAtNul_append (field tail : List UInt8) (h : (0 : UInt8) ∉ field) :
    splitAtNul (field ++ 0 :: tail) = some (field, tail) := by
  induction field with
  | nil => simp [splitAtNul]
  | cons b bs ih =>
    have hb : b ≠ 0 := fun e => h (by simp [e])
    have hbs : (0 : UInt8) ∉ bs := fun e => h (by simp [e])
    simp [splitAtNul, hb, ih hbs]

/-- C5, as stated, fails: the bucket `a\0b` with the password `c` and the
bucket `a` with the password `b\0c` give the same buffer `\0a\0b\0c`, which
decodes to the principal `a`; so no decoder recovers every principal.  The
buffer ends with the last byte of the secret, not with a terminating zero. -/
theorem credential_roundtrip_counterexample :
    buildAuthData [97, 0, 98] [99] = .ok [0, 97, 0, 98, 0, 99] ∧
    buildAuthData [97] [98, 0, 99] = .ok [0, 97, 0, 98, 0, 99] ∧
    decodePlain [0, 97, 0, 98, 0, 99] = some ([], [97], [98, 0, 99]) ∧
    ([0, 97, 0, 98, 0, 99] : List UInt8).getLast? = some 99 ∧
    ¬ ∃ decode : List UInt8 → Option (List UInt8 × List UInt8 × List UInt8),
        ∀ bucket password : List UInt8, ∃ buf,
          buildAuthData bucket password = .ok buf ∧
          decode buf = some ([], bucket, password) := by
  refine ⟨buildAuthData_eq _ _, buildAuthData_eq _ _, by decide, by decide, ?_⟩
  rintro ⟨decode, hd⟩
  obtain ⟨b1, hb1, hd1⟩ := hd [97, 0, 98] [99]
  obtain ⟨b2, hb2, hd2⟩ := hd [97] [98, 0, 99]
  rw [buildAuthData_eq] at hb1 hb2
  cases hb1
  cases hb2
  rw [show (0 :: [97] ++ 0 :: [98, 0, 99] : List UInt8) = 0 :: [97, 0, 98] ++ 0 :: [99]
    from rfl, hd1] at hd2
  revert hd2
  decide

/-- C5, amended: for every principal without a zero byte and every secret,
the buffer of the callback is the empty authorization field and the principal,
each followed by a zero byte, and then the secret up to the end of the buffer;
decoding it gives back the empty authorization field, the principal and the
secret. -/
theorem credential_roundtrip (bucket password : List UInt8) (h : (0 : UInt8) ∉ bucket) :
    ∃ buf, buildAuthData bucket password = .ok buf ∧
      buf = ([] ++ [0]) ++ (bucket ++ [0]) ++ password ∧
      decodePlain buf = some ([], bucket, password) := by
  refine ⟨0 :: bucket ++ 0 :: password, buildAuthData_eq _ _, by simp, ?_⟩
  show decodePlain (0 :: (bucket ++ 0 :: password)) = _
  have h1 : splitAtNul (0 :: (bucket ++ 0 :: password)) =
      some ([], bucket ++ 0 :: password) := by
    simp [splitAtNul]
  simp only [decodePlain, h1, splitAtNul_append bucket password h]

/-- C5, amended, at the bucket `default` and the password `s3cret`. -/
theorem credential_roundtrip_witness :
    (0 : UInt8) ∉ bytesOf "default" ∧
    ∃ buf, buildAuthData (bytesOf "default") (bytesOf "s3cret") = .ok buf ∧
      buf = ([] ++ [0]) ++ (bytesOf "default" ++ [0]) ++ bytesOf "s3cret" ∧
      decodePlain buf = some ([], bytesOf "default", bytesOf "s3cret") :=
  ⟨by decide, credential_roundtrip (bytesOf "default") (bytesOf "s3cret") (by decide)⟩

/-- C6: for every bucket and password, the callback of the configuration
`makeAgentConfig` returns builds the buffer `0 :: bucket ++ 0 :: password`, of
length `len(bucket) + len(password) + 2`, without a panic; it calls
`ExecSaslAuth` once, with the mechanism `PLAIN`, that buffer and the deadline
it received, and returns the error of that call unchanged. -/
theorem authHandler_sasl_plain {σ ε τ : Type} (c : Cluster) (bucket password : List UInt8)
    (srv : gocbcore.AuthClient σ ε τ) (deadline : τ) (s : σ) :
    buildAuthData bucket password = .ok (0 :: bucket ++ 0 :: password) ∧
    (0 :: bucket ++ 0 :: password).length = bucket.length + password.length + 2 ∧
    bytesOf "PLAIN" = [80, 76, 65, 73, 78] ∧
    (c.makeAgentConfig bucket password).1.AuthHandler srv deadline s =
      .ok ((srv.ExecSaslAuth [80, 76, 65, 73, 78] (0 :: bucket ++ 0 :: password)
              deadline s).1.2,
           (srv.ExecSaslAuth [80, 76, 65, 73, 78] (0 :: bucket ++ 0 :: password)
              deadline s).2) := by
  have hp : bytesOf "PLAIN" = [80, 76, 65, 73, 78] := by decide
  refine ⟨buildAuthData_eq _ _, by simp; omega, hp, ?_⟩
  simp only [Cluster.makeAgentConfig, authFn, buildAuthData_eq, hp]
  rfl

/-- C6, at the bucket `u`, the password `p` and a client that records its
calls and answers with the error `denied`: one call is recorded, with `PLAIN`,
the buffer `\0u\0p` and the deadline `5`, and the callback returns `denied`. -/
theorem authHandler_sasl_plain_witness :
    ((⟨⟨"http", []⟩, 0, 0⟩ : Cluster).makeAgentConfig [117] [112]).1.AuthHandler
        (recordingClient (some "denied")) (5 : Nat) [] =
      .ok (some "denied", [([80, 76, 65, 73, 78], [0, 117, 0, 112], 5)]) :=
  (authHandler_sasl_plain ⟨⟨"http", []⟩, 0, 0⟩ [117] [112]
    (recordingClient (some "denied")) (5 : Nat) []).2.2.2

/-! ## Transport security (C7) -/

/-- C7: the `TlsConfig` of the configuration `makeAgentConfig` returns is
present, with `InsecureSkipVerify = true`, exactly when the scheme of the
cluster is `couchbases`, and is `nil` exactly when it is any other scheme; the
same holds for the `TLSClientConfig` of the HTTP transport `Manager` builds. -/
theorem tlsConfig_iff_couchbases {σ ε τ : Type} (c : Cluster)
    (bucket password username mgmtPassword : List UInt8) :
    (((c.makeAgentConfig bucket password).1 : gocbcore.AgentConfig σ ε τ).TlsConfig =
        some ⟨true⟩ ↔ c.spec.Scheme = "couchbases") ∧
    (((c.makeAgentConfig bucket password).1 : gocbcore.AgentConfig σ ε τ).TlsConfig =
        none ↔ c.spec.Scheme ≠ "couchbases") ∧
    ((c.Manager username mgmtPassword).1.httpCli.Transport.TLSClientConfig =
        some ⟨true⟩ ↔ c.spec.Scheme = "couchbases") ∧
    ((c.Manager username mgmtPassword).1.httpCli.Transport.TLSClientConfig =
        none ↔ c.spec.Scheme ≠ "couchbases") := by
  by_cases hs : c.spec.Scheme = "couchbases" <;>
    simp [Cluster.makeAgentConfig, Cluster.Manager, specToHosts, hs]

/-- C7, at the schemes `couchbases` and `couchbase`. -/
theorem tlsConfig_iff_couchbases_witness :
    (((⟨⟨"couchbases", [⟨"10.0.0.1", 0⟩]⟩, 0, 0⟩ : Cluster).makeAgentConfig [] []).1 :
        gocbcore.AgentConfig Unit Unit Unit).TlsConfig = some ⟨true⟩ ∧
    (((⟨⟨"couchbase", [⟨"10.0.0.1", 0⟩]⟩, 0, 0⟩ : Cluster).makeAgentConfig [] []).1 :
        gocbcore.AgentConfig Unit Unit Unit).TlsConfig = none ∧
    ((⟨⟨"couchbases", [⟨"10.0.0.1", 0⟩]⟩, 0, 0⟩ : Cluster).Manager [] []).1.httpCli.Transport.TLSClientConfig
        = some ⟨true⟩ ∧
    ((⟨⟨"couchbase", [⟨"10.0.0.1", 0⟩]⟩, 0, 0⟩ : Cluster).Manager [] []).1.httpCli.Transport.TLSClientConfig
        = none :=
  have t1 := @tlsConfig_iff_couchbases Unit Unit Unit
    ⟨⟨"couchbases", [⟨"10.0.0.1", 0⟩]⟩, 0, 0⟩ [] [] [] []
  have t2 := @tlsConfig_iff_couchbases Unit Unit Unit
    ⟨⟨"couchbase", [⟨"10.0.0.1", 0⟩]⟩, 0, 0⟩ [] [] [] []
  ⟨t1.1.mpr rfl, t2.2.1.mpr (by decide), t1.2.2.1.mpr rfl, t2.2.2.2.mpr (by decide)⟩

/-! ## Unknown schemes (C8) -/

/-- C8: when the parsed scheme is non-empty and none of `couchbase`,
`couchbases`, `http`, `Connect` panics with `Unsupported Scheme!`, whatever the
resolver is, and leaves the state of the network as it was: the resolver has
not run and no cluster is returned.  When the parsed scheme is one of the
three, `Connect` returns a cluster, holding the spec the resolver produced,
with a `nil` error. -/
theorem Connect_scheme_check {ω : Type} (ε : Type) (parseConnSpec : String → connSpec)
    (csResolveDnsSrv : connSpec → ω → connSpec × ω) (connSpecStr : String) (w : ω) :
    (((parseConnSpec connSpecStr).Scheme ≠ "" ∧
        (parseConnSpec connSpecStr).Scheme ≠ "couchbase" ∧
        (parseConnSpec connSpecStr).Scheme ≠ "couchbases" ∧
        (parseConnSpec connSpecStr).Scheme ≠ "http") →
      ∀ resolver : connSpec → ω → connSpec × ω,
        Connect ε parseConnSpec resolver connSpecStr w =
          (.error "Unsupported Scheme!", w)) ∧
    (((parseConnSpec connSpecStr).Scheme = "couchbase" ∨
        (parseConnSpec connSpecStr).Scheme = "couchbases" ∨
        (parseConnSpec connSpecStr).Scheme = "http") →
      ∃ cluster : Cluster,
        Connect ε parseConnSpec csResolveDnsSrv connSpecStr w =
          (.ok (cluster, none), (csResolveDnsSrv (parseConnSpec connSpecStr) w).2) ∧
        cluster.spec = (csResolveDnsSrv (parseConnSpec connSpecStr) w).1) := by
  refine ⟨?_, ?_⟩
  · rintro ⟨h0, h1, h2, h3⟩ resolver
    simp [Connect, h0, h1, h2, h3]
  · intro h
    have h0 : (parseConnSpec connSpecStr).Scheme ≠ "" := by
      rcases h with h | h | h <;> rw [h] <;> decide
    refine ⟨⟨(csResolveDnsSrv (parseConnSpec connSpecStr) w).1, 60000 * Millisecond,
      7000 * Millisecond⟩, ?_, rfl⟩
    rcases h with h | h | h <;> simp [Connect, h]

/-- C8, at `ftp://host` (panic, the lookup counter of the network untouched)
and at `couchbase://host` (a cluster, after one lookup). -/
theorem Connect_scheme_check_witness :
    Connect Unit (fun _ => ⟨"ftp", [⟨"host", 0⟩]⟩) (fun sp (n : Nat) => (sp, n + 1))
        "ftp://host" 0 = (.error "Unsupported Scheme!", 0) ∧
    ∃ cluster : Cluster,
      Connect Unit (fun _ => ⟨"couchbase", [⟨"host", 0⟩]⟩) (fun sp (n : Nat) => (sp, n + 1))
        "couchbase://host" 0 = (.ok (cluster, none), 1) ∧
      cluster.spec = ⟨"couchbase", [⟨"host", 0⟩]⟩ :=
  ⟨(Connect_scheme_check Unit (fun _ => ⟨"ftp", [⟨"host", 0⟩]⟩)
      (fun sp (n : Nat) => (sp, n + 1)) "ftp://host" 0).1
      ⟨by decide, by decide, by decide, by decide⟩ (fun sp (n : Nat) => (sp, n + 1)),
   (Connect_scheme_check Unit (fun _ => ⟨"couchbase", [⟨"host", 0⟩]⟩)
      (fun sp (n : Nat) => (sp, n + 1)) "couchbase://host" 0).2 (Or.inl rfl)⟩

/-! ## Management base URLs (C9) -/

theorem foldl_ManagerStep (isSslHosts : Bool) (httpHosts acc : List String) :
    httpHosts.foldl (ManagerStep isSslHosts) acc =
      acc ++ httpHosts.map (fun host =>
        (if isSslHosts then "https://" else "http://") ++ host) := by
  induction httpHosts generalizing acc with
  | nil => simp
  | cons x xs ih =>
    cases isSslHosts <;> simp [List.foldl_cons, ih, ManagerStep]

/-- C9: the hosts of the handle `Manager` returns are the management endpoints
of `specToHosts c.spec`, in the same order and number, each prefixed with
`https://` when the scheme is `couchbases` and with `http://` otherwise; the
user name and the password of the handle are the arguments. -/
theorem Manager_hosts (c : Cluster) (username password : List UInt8) :
    (c.Manager username password).1.hosts =
      (specToHosts c.spec).2.1.map (fun e =>
        (if c.spec.Scheme = "couchbases" then "https://" else "http://") ++ e) ∧
    (c.Manager username password).1.hosts.length = (specToHosts c.spec).2.1.length ∧
    (∀ i : Nat, (c.Manager username password).1.hosts[i]? =
      ((specToHosts c.spec).2.1[i]?).map (fun e =>
        (if c.spec.Scheme = "couchbases" then "https://" else "http://") ++ e)) ∧
    (c.Manager username password).1.username = username ∧
    (c.Manager username password).1.password = password := by
  have h : (c.Manager username password).1.hosts =
      (specToHosts c.spec).2.1.map (fun e =>
        (if c.spec.Scheme = "couchbases" then "https://" else "http://") ++ e) := by
    simp [Cluster.Manager, foldl_ManagerStep, specToHosts]
  refine ⟨h, by rw [h, List.length_map], ?_, rfl, rfl⟩
  intro i
  rw [h, List.getElem?_map]

/-- C9, at the scheme `couchbases` with the host `10.0.0.1`: the base URL is
`https://10.0.0.1:18091`. -/
theorem Manager_hosts_witness :
    ((⟨⟨"couchbases", [⟨"10.0.0.1", 0⟩]⟩, 0, 0⟩ : Cluster).Manager
        (bytesOf "Administrator") (bytesOf "pw")).1.hosts = ["https://10.0.0.1:18091"] :=
  (Manager_hosts ⟨⟨"couchbases", [⟨"10.0.0.1", 0⟩]⟩, 0, 0⟩
    (bytesOf "Administrator") (bytesOf "pw")).1.trans (by decide)

/-! ## `makeAgentConfig` reads the cluster and does not write it (C10) -/

/-- C10: `makeAgentConfig` leaves the cluster, hence its spec and its two
timeouts, as they were; the configuration it returns has the KV endpoints and
the management endpoints of `specToHosts c.spec`, the bucket, the password and
the two timeouts of the cluster; and a second call with the same arguments
returns an equal configuration. -/
theorem makeAgentConfig_frame {σ ε τ : Type} (c : Cluster) (bucket password : List UInt8) :
    (c.makeAgentConfig bucket password : gocbcore.AgentConfig σ ε τ × Cluster).2.spec =
      c.spec ∧
    (c.makeAgentConfig bucket password : gocbcore.AgentConfig σ ε τ × Cluster).2.connectTimeout =
      c.connectTimeout ∧
    (c.makeAgentConfig bucket password :
      gocbcore.AgentConfig σ ε τ × Cluster).2.serverConnectTimeout = c.serverConnectTimeout ∧
    (c.makeAgentConfig bucket password : gocbcore.AgentConfig σ ε τ × Cluster).1.MemdAddrs =
      (specToHosts c.spec).1 ∧
    (c.makeAgentConfig bucket password : gocbcore.AgentConfig σ ε τ × Cluster).1.HttpAddrs =
      (specToHosts c.spec).2.1 ∧
    (c.makeAgentConfig bucket password : gocbcore.AgentConfig σ ε τ × Cluster).1.BucketName =
      bucket ∧
    (c.makeAgentConfig bucket password : gocbcore.AgentConfig σ ε τ × Cluster).1.Password =
      password ∧
    (c.makeAgentConfig bucket password : gocbcore.AgentConfig σ ε τ × Cluster).1.ConnectTimeout =
      c.connectTimeout ∧
    (c.makeAgentConfig bucket password :
      gocbcore.AgentConfig σ ε τ × Cluster).1.ServerConnectTimeout = c.serverConnectTimeout ∧
    ((c.makeAgentConfig bucket password :
        gocbcore.AgentConfig σ ε τ × Cluster).2.makeAgentConfig bucket password).1 =
      (c.makeAgentConfig bucket password : gocbcore.AgentConfig σ ε τ × Cluster).1 :=
  ⟨rfl, rfl, rfl, rfl, rfl, rfl, rfl, rfl, rfl, rfl⟩

/-- C10, at the cluster `couchbase://10.0.0.1,10.0.0.2:11300` with the
timeouts 60 s and 7 s. -/
theorem makeAgentConfig_frame_witness :
    (((⟨⟨"couchbase", [⟨"10.0.0.1", 0⟩, ⟨"10.0.0.2", 11300⟩]⟩, 60000 * Millisecond,
        7000 * Millisecond⟩ : Cluster).makeAgentConfig [117] [112]).1 :
        gocbcore.AgentConfig Unit Unit Unit).MemdAddrs =
      ["10.0.0.1:11210", "10.0.0.2:11300"] :=
  (@makeAgentConfig_frame Unit Unit Unit
    ⟨⟨"couchbase", [⟨"10.0.0.1", 0⟩, ⟨"10.0.0.2", 11300⟩]⟩, 60000 * Millisecond,
      7000 * Millisecond⟩ [117] [112]).2.2.2.1.trans (by decide)

/-! ## The default scheme (C11) -/

/-- C11: when the parsed scheme is empty, `Connect` does what it does for the
same spec with the scheme `http`, and returns a cluster with a `nil` error.
With a resolver that keeps the scheme, the spec of that cluster has the scheme
`http`: `specToHosts` reports it as not encrypted, the KV endpoint of every
host entry is `<host>:11210`, and an explicit (non-zero) port `p` gives the
management endpoint `<host>:p`. -/
theorem Connect_empty_scheme {ω : Type} (ε : Type) (parseConnSpec : String → connSpec)
    (csResolveDnsSrv : connSpec → ω → connSpec × ω) (connSpecStr : String) (w : ω)
    (h0 : (parseConnSpec connSpecStr).Scheme = "") (hres : keepsScheme csResolveDnsSrv) :
    Connect ε parseConnSpec csResolveDnsSrv connSpecStr w =
      Connect ε (fun str => { parseConnSpec str with Scheme := "http" })
        csResolveDnsSrv connSpecStr w ∧
    ∃ cluster : Cluster,
      Connect ε parseConnSpec csResolveDnsSrv connSpecStr w =
        (.ok (cluster, none),
          (csResolveDnsSrv { parseConnSpec connSpecStr with Scheme := "http" } w).2) ∧
      cluster.spec = (csResolveDnsSrv { parseConnSpec connSpecStr with Scheme := "http" } w).1 ∧
      cluster.spec.Scheme = "http" ∧
      (specToHosts cluster.spec).2.2 = false ∧
      ∀ (i : Nat) (h : connSpecHost), cluster.spec.Hosts[i]? = some h →
        (specToHosts cluster.spec).1[i]? = some (h.Host ++ ":11210") ∧
        (h.Port ≠ 0 →
          (specToHosts cluster.spec).2.1[i]? = some (h.Host ++ ":" ++ toString h.Port)) := by
  have hs : (csResolveDnsSrv { parseConnSpec connSpecStr with Scheme := "http" } w).1.Scheme
      = "http" := hres _ w
  refine ⟨by simp [Connect, h0], ?_⟩
  refine ⟨⟨(csResolveDnsSrv { parseConnSpec connSpecStr with Scheme := "http" } w).1,
    60000 * Millisecond, 7000 * Millisecond⟩, by simp [Connect, h0], rfl, hs, ?_, ?_⟩
  · simp [specToHosts_ssl, hs]
  · intro i h hi
    rw [specToHosts_kv_at _ i h hi, specToHosts_mgmt_at _ i h hi]
    refine ⟨?_, ?_⟩
    · simp [kvEndpoint, cccpPort, hs, Sprintf_11210]
    · intro hp
      simp [mgmtEndpoint, httpPort, hs, hp, Sprintf]

/-- C11, at the string `10.0.0.1:9000`, parsed with an empty scheme, and a
resolver that leaves the spec as it is: KV `10.0.0.1:11210`, management
`10.0.0.1:9000`, not encrypted. -/
theorem Connect_empty_scheme_witness :
    keepsScheme (fun sp (n : Nat) => (sp, n)) ∧
    ∃ cluster : Cluster,
      Connect Unit (fun _ => ⟨"", [⟨"10.0.0.1", 9000⟩]⟩) (fun sp (n : Nat) => (sp, n))
        "10.0.0.1:9000" 0 = (.ok (cluster, none), 0) ∧
      cluster.spec = ⟨"http", [⟨"10.0.0.1", 9000⟩]⟩ ∧
      cluster.spec.Scheme = "http" ∧
      (specToHosts cluster.spec).2.2 = false ∧
      ∀ (i : Nat) (h : connSpecHost), cluster.spec.Hosts[i]? = some h →
        (specToHosts cluster.spec).1[i]? = some (h.Host ++ ":11210") ∧
        (h.Port ≠ 0 →
          (specToHosts cluster.spec).2.1[i]? = some (h.Host ++ ":" ++ toString h.Port)) :=
  ⟨fun _ _ => rfl,
   (Connect_empty_scheme Unit (fun _ => ⟨"", [⟨"10.0.0.1", 9000⟩]⟩)
      (fun sp (n : Nat) => (sp, n)) "10.0.0.1:9000" 0 rfl (fun _ _ => rfl)).2⟩

/-! ## Timeouts (C12, C13) -/

/-- C12: every cluster `Connect` returns has the connect timeout 60000 ms,
which is 60 s, and the server-connect timeout 7000 ms, which is 7 s, whatever
the connection string, the parser and the resolver are; both values fit the 64
bits of a `time.Duration`. -/
theorem Connect_default_timeouts {ω : Type} (ε : Type) (parseConnSpec : String → connSpec)
    (csResolveDnsSrv : connSpec → ω → connSpec × ω) (connSpecStr : String) (w w' : ω)
    (cluster : Cluster) (err : Option ε)
    (h : Connect ε parseConnSpec csResolveDnsSrv connSpecStr w = (.ok (cluster, err), w')) :
    cluster.ConnectTimeout.1 = 60000 * Millisecond ∧
    cluster.ConnectTimeout.1 = 60 * Second ∧
    cluster.ServerConnectTimeout.1 = 7000 * Millisecond ∧
    cluster.ServerConnectTimeout.1 = 7 * Second ∧
    60000 * Millisecond < 2 ^ 63 ∧ 7000 * Millisecond < 2 ^ 63 := by
  have hc : cluster.connectTimeout = 60000 * Millisecond ∧
      cluster.serverConnectTimeout = 7000 * Millisecond := by
    unfold Connect at h
    simp only at h
    split at h <;> split at h <;> simp at h <;>
      (obtain ⟨⟨hcl, -⟩, -⟩ := h
       subst hcl
       exact ⟨rfl, rfl⟩)
  refine ⟨hc.1, ?_, hc.2, ?_, by decide, by decide⟩
  · show cluster.connectTimeout = 60 * Second
    rw [hc.1]; decide
  · show cluster.serverConnectTimeout = 7 * Second
    rw [hc.2]; decide

/-- C12, at `couchbase://host`. -/
theorem Connect_default_timeouts_witness :
    Connect Unit (fun _ => ⟨"couchbase", [⟨"host", 0⟩]⟩) (fun sp (n : Nat) => (sp, n + 1))
        "couchbase://host" 0 =
      (.ok (⟨⟨"couchbase", [⟨"host", 0⟩]⟩, 60000000000, 7000000000⟩, none), 1) ∧
    (⟨⟨"couchbase", [⟨"host", 0⟩]⟩, 60000000000, 7000000000⟩ : Cluster).ConnectTimeout.1 =
      60000 * Millisecond ∧
    (⟨⟨"couchbase", [⟨"host", 0⟩]⟩, 60000000000, 7000000000⟩ : Cluster).ServerConnectTimeout.1 =
      7000 * Millisecond :=
  have t := Connect_default_timeouts Unit (fun _ => ⟨"couchbase", [⟨"host", 0⟩]⟩)
    (fun sp (n : Nat) => (sp, n + 1)) "couchbase://host" 0 1
    ⟨⟨"couchbase", [⟨"host", 0⟩]⟩, 60000000000, 7000000000⟩ none rfl
  ⟨rfl, t.1, t.2.2.1⟩

/-- C13: after `SetConnectTimeout(t)` the getter `ConnectTimeout()` returns
`t` while `ServerConnectTimeout()` and the spec are as before; after
`SetServerConnectTimeout(t)` the getter `ServerConnectTimeout()` returns `t`
while `ConnectTimeout()` and the spec are as before; and each getter returns
the cluster it was called on unchanged. -/
theorem timeout_setters_exact_framed (c : Cluster) (t : Duration) :
    ((c.SetConnectTimeout t).ConnectTimeout.1 = t ∧
      (c.SetConnectTimeout t).ServerConnectTimeout.1 = c.ServerConnectTimeout.1 ∧
      (c.SetConnectTimeout t).spec = c.spec) ∧
    ((c.SetServerConnectTimeout t).ServerConnectTimeout.1 = t ∧
      (c.SetServerConnectTimeout t).ConnectTimeout.1 = c.ConnectTimeout.1 ∧
      (c.SetServerConnectTimeout t).spec = c.spec) ∧
    (c.ConnectTimeout.2 = c ∧ c.ServerConnectTimeout.2 = c) :=
  ⟨⟨rfl, rfl, rfl⟩, ⟨rfl, rfl, rfl⟩, ⟨rfl, rfl⟩⟩

/-- C13, at a cluster with the default timeouts and `t` = 2.5 s. -/
theorem timeout_setters_exact_framed_witness :
    ((⟨⟨"http", [⟨"h", 0⟩]⟩, 60 * Second, 7 * Second⟩ : Cluster).SetConnectTimeout
        (2500 * Millisecond)) = ⟨⟨"http", [⟨"h", 0⟩]⟩, 2500 * Millisecond, 7 * Second⟩ ∧
    ((⟨⟨"http", [⟨"h", 0⟩]⟩, 60 * Second, 7 * Second⟩ : Cluster).SetConnectTimeout
        (2500 * Millisecond)).ConnectTimeout.1 = 2500 * Millisecond :=
  ⟨rfl, (timeout_setters_exact_framed ⟨⟨"http", [⟨"h", 0⟩]⟩, 60 * Second, 7 * Second⟩
    (2500 * Millisecond)).1.1⟩

/-! ## The streaming bucket (C14) -/

/-- C14: `OpenStreamingBucket` runs the constructor once, on the configuration
of `makeAgentConfig(bucket, password)` and the caller's stream name, and leaves
the cluster as it was.  When the constructor returns the error `e`, the method
returns `(nil, e)`; when it returns no error, the method returns a bucket whose
`IoRouter()` is the agent the constructor returned, and a `nil` error. -/
theorem OpenStreamingBucket_result {σ ε τ ω α : Type}
    (CreateDcpAgent : gocbcore.AgentConfig σ ε τ → String → ω → (Option α × Option ε) × ω)
    (c : Cluster) (streamName : String) (bucket password : List UInt8) (w : ω) :
    (∀ e : ε,
      (CreateDcpAgent (c.makeAgentConfig bucket password).1 streamName w).1.2 = some e →
      c.OpenStreamingBucket CreateDcpAgent streamName bucket password w =
        ((none, some e), c,
          (CreateDcpAgent (c.makeAgentConfig bucket password).1 streamName w).2)) ∧
    ((CreateDcpAgent (c.makeAgentConfig bucket password).1 streamName w).1.2 = none →
      ∃ b : StreamingBucket α,
        c.OpenStreamingBucket CreateDcpAgent streamName bucket password w =
          ((some b, none), c,
            (CreateDcpAgent (c.makeAgentConfig bucket password).1 streamName w).2) ∧
        b.IoRouter.1 =
          (CreateDcpAgent (c.makeAgentConfig bucket password).1 streamName w).1.1) := by
  have hc : (c.makeAgentConfig bucket password :
      gocbcore.AgentConfig σ ε τ × Cluster).2 = c := rfl
  unfold Cluster.OpenStreamingBucket
  generalize hr : CreateDcpAgent (c.makeAgentConfig bucket password).1 streamName w = r
  obtain ⟨⟨cli, err⟩, w2⟩ := r
  refine ⟨?_, ?_⟩
  · intro e he
    simp only at he
    subst he
    simp [hr, hc]
  · intro he
    simp only at he
    subst he
    exact ⟨⟨cli⟩, by simp [hr, hc], rfl⟩

/-- C14, at a constructor that records its calls: when it answers with the
error `refused`, the method returns `(nil, refused)` after one recorded call;
when it answers with the agent `7`, the bucket's `IoRouter()` is `7`. -/
theorem OpenStreamingBucket_result_witness :
    (⟨⟨"couchbase", [⟨"h", 0⟩]⟩, 0, 0⟩ : Cluster).OpenStreamingBucket
        (recordingCreateDcpAgent ((none : Option Nat), some "refused") :
          gocbcore.AgentConfig Unit String Unit → _)
        "feed" [98] [112] [] =
      ((none, some "refused"), ⟨⟨"couchbase", [⟨"h", 0⟩]⟩, 0, 0⟩,
        [([98], [112], ["h:8091"], "feed")]) ∧
    ∃ b : StreamingBucket Nat,
      (⟨⟨"couchbase", [⟨"h", 0⟩]⟩, 0, 0⟩ : Cluster).OpenStreamingBucket
          (recordingCreateDcpAgent (some 7, (none : Option String)) :
            gocbcore.AgentConfig Unit String Unit → _)
          "feed" [98] [112] [] =
        ((some b, none), ⟨⟨"couchbase", [⟨"h", 0⟩]⟩, 0, 0⟩,
          [([98], [112], ["h:8091"], "feed")]) ∧
      b.IoRouter.1 = some 7 :=
  ⟨(OpenStreamingBucket_result
      (recordingCreateDcpAgent ((none : Option Nat), some "refused") :
        gocbcore.AgentConfig Unit String Unit → _)
      ⟨⟨"couchbase", [⟨"h", 0⟩]⟩, 0, 0⟩ "feed" [98] [112] []).1 "refused" rfl,
   (OpenStreamingBucket_result
      (recordingCreateDcpAgent (some 7, (none : Option String)) :
        gocbcore.AgentConfig Unit String Unit → _)
      ⟨⟨"couchbase", [⟨"h", 0⟩]⟩, 0, 0⟩ "feed" [98] [112] []).2 rfl⟩

/-! ## Injectivity of the credential buffer (C15) -/

/-- C15: when neither bucket contains a zero byte and the buffers the callback
builds from `(bucket1, password1)` and from `(bucket2, password2)` are equal,
the buckets are equal and the passwords are equal. -/
theorem buildAuthData_injective (bucket1 password1 bucket2 password2 : List UInt8)
    (h1 : (0 : UInt8) ∉ bucket1) (h2 : (0 : UInt8) ∉ bucket2)
    (h : buildAuthData bucket1 password1 = buildAuthData bucket2 password2) :
    bucket1 = bucket2 ∧ password1 = password2 := by
  rw [buildAuthData_eq, buildAuthData_eq] at h
  have hl : bucket1 ++ 0 :: password1 = bucket2 ++ 0 :: password2 := by
    simpa using h
  have hs := splitAtNul_append bucket1 password1 h1
  rw [hl, splitAtNul_append bucket2 password2 h2] at hs
  simp only [Option.some.injEq, Prod.mk.injEq] at hs
  exact ⟨hs.1.symm, hs.2.symm⟩

/-- C15, at the bucket `beer` and the password `pw`; the buffer is
`\0beer\0pw`. -/
theorem buildAuthData_injective_witness :
    (0 : UInt8) ∉ bytesOf "beer" ∧
    buildAuthData (bytesOf "beer") (bytesOf "pw") =
      .ok [0, 98, 101, 101, 114, 0, 112, 119] ∧
    (bytesOf "beer" = [98, 101, 101, 114] ∧ bytesOf "pw" = [112, 119]) :=
  ⟨by decide, buildAuthData_eq _ _,
   buildAuthData_injective (bytesOf "beer") (bytesOf "pw") [98, 101, 101, 114] [112, 119]
     (by decide) (by decide) rfl⟩

/-! ## Resolved ports are not zero (C16) -/

theorem cccpPort_ne_zero (a b : Bool) (port : Int) : cccpPort a b port ≠ 0 := by
  unfold cccpPort
  by_cases hp : port = 0 <;> cases a <;> cases b <;> simp [hp]

theorem httpPort_ne_zero (a b : Bool) (port : Int) : httpPort a b port ≠ 0 := by
  unfold httpPort
  by_cases hp : port = 0 <;> cases a <;> cases b <;> simp [hp]

/-- C16: for every spec, whatever its scheme, and every host entry, whatever
its port, the port `specToHosts` prints into the KV endpoint and the port it
prints into the management endpoint are not zero; when the port of the entry is
`0` the first is `11210` or `11207` and the second is `8091` or `18091`. -/
theorem specToHosts_ports_nonzero (spec : connSpec) (i : Nat) (h : connSpecHost)
    (hi : spec.Hosts[i]? = some h) :
    ∃ kvPort mgmtPort : Int,
      kvPort = cccpPort (spec.Scheme == "http") (spec.Scheme == "couchbases") h.Port ∧
      mgmtPort = httpPort (spec.Scheme == "http") (spec.Scheme == "couchbases") h.Port ∧
      (specToHosts spec).1[i]? = some (h.Host ++ ":" ++ toString kvPort) ∧
      (specToHosts spec).2.1[i]? = some (h.Host ++ ":" ++ toString mgmtPort) ∧
      kvPort ≠ 0 ∧ mgmtPort ≠ 0 ∧
      (h.Port = 0 →
        (kvPort = 11210 ∨ kvPort = 11207) ∧ (mgmtPort = 8091 ∨ mgmtPort = 18091)) := by
  refine ⟨_, _, rfl, rfl, ?_, ?_, cccpPort_ne_zero _ _ _, httpPort_ne_zero _ _ _, ?_⟩
  · rw [specToHosts_kv_at spec i h hi]; rfl
  · rw [specToHosts_mgmt_at spec i h hi]; rfl
  · intro hp
    unfold cccpPort httpPort
    cases (spec.Scheme == "http") <;> cases (spec.Scheme == "couchbases") <;> simp [hp]

/-- C16, at the unknown scheme `ftp` with the ports `0` and `-1`. -/
theorem specToHosts_ports_nonzero_witness :
    (specToHosts ⟨"ftp", [⟨"a", 0⟩, ⟨"b", -1⟩]⟩).1 = ["a:11210", "b:-1"] ∧
    (specToHosts ⟨"ftp", [⟨"a", 0⟩, ⟨"b", -1⟩]⟩).2.1 = ["a:8091", "b:8091"] ∧
    ∃ kvPort mgmtPort : Int,
      kvPort = cccpPort (("ftp" : String) == "http") (("ftp" : String) == "couchbases") 0 ∧
      mgmtPort = httpPort (("ftp" : String) == "http") (("ftp" : String) == "couchbases") 0 ∧
      (specToHosts ⟨"ftp", [⟨"a", 0⟩, ⟨"b", -1⟩]⟩).1[0]? =
        some ("a" ++ ":" ++ toString kvPort) ∧
      (specToHosts ⟨"ftp", [⟨"a", 0⟩, ⟨"b", -1⟩]⟩).2.1[0]? =
        some ("a" ++ ":" ++ toString mgmtPort) ∧
      kvPort ≠ 0 ∧ mgmtPort ≠ 0 ∧
      ((0 : Int) = 0 →
        (kvPort = 11210 ∨ kvPort = 11207) ∧ (mgmtPort = 8091 ∨ mgmtPort = 18091)) :=
  ⟨by decide, by decide,
   specToHosts_ports_nonzero ⟨"ftp", [⟨"a", 0⟩, ⟨"b", -1⟩]⟩ 0 ⟨"a", 0⟩ rfl⟩

/-! ## One resolution for data and management sessions (C17) -/

/-- C17: the hosts of `c.Manager(u, p)` are the `HttpAddrs` of
`c.makeAgentConfig(b, pw)`, in order, each prefixed with `https://` when the
`TlsConfig` of that configuration is present and with `http://` when it is
`nil`; and the TLS configuration of the manager's transport is the `TlsConfig`
of the configuration, so the one is present exactly when the other is. -/
theorem Manager_agrees_with_agentConfig {σ ε τ : Type} (c : Cluster)
    (username mgmtPassword bucket password : List UInt8) :
    (c.Manager username mgmtPassword).1.hosts =
      ((c.makeAgentConfig bucket password).1 : gocbcore.AgentConfig σ ε τ).HttpAddrs.map
        (fun e =>
          (if ((c.makeAgentConfig bucket password).1 :
              gocbcore.AgentConfig σ ε τ).TlsConfig.isSome
            then "https://" else "http://") ++ e) ∧
    (c.Manager username mgmtPassword).1.httpCli.Transport.TLSClientConfig =
      ((c.makeAgentConfig bucket password).1 : gocbcore.AgentConfig σ ε τ).TlsConfig ∧
    ((c.Manager username mgmtPassword).1.httpCli.Transport.TLSClientConfig.isSome ↔
      ((c.makeAgentConfig bucket password).1 :
        gocbcore.AgentConfig σ ε τ).TlsConfig.isSome) := by
  refine ⟨?_, rfl, Iff.rfl⟩
  by_cases hs : c.spec.Scheme = "couchbases" <;>
    simp [Cluster.Manager, Cluster.makeAgentConfig, foldl_ManagerStep, specToHosts, hs]

/-- C17, at `couchbases://10.0.0.1` and at `http://10.0.0.1:9000`. -/
theorem Manager_agrees_with_agentConfig_witness :
    ((⟨⟨"couchbases", [⟨"10.0.0.1", 0⟩]⟩, 0, 0⟩ : Cluster).Manager [] []).1.hosts =
      ["https://10.0.0.1:18091"] ∧
    (((⟨⟨"couchbases", [⟨"10.0.0.1", 0⟩]⟩, 0, 0⟩ : Cluster).makeAgentConfig [] []).1 :
      gocbcore.AgentConfig Unit Unit Unit).HttpAddrs = ["10.0.0.1:18091"] ∧
    ((⟨⟨"http", [⟨"10.0.0.1", 9000⟩]⟩, 0, 0⟩ : Cluster).Manager [] []).1.hosts =
      ["http://10.0.0.1:9000"] ∧
    ((⟨⟨"http", [⟨"10.0.0.1", 9000⟩]⟩, 0, 0⟩ : Cluster).Manager
        [] []).1.httpCli.Transport.TLSClientConfig =
      (((⟨⟨"http", [⟨"10.0.0.1", 9000⟩]⟩, 0, 0⟩ : Cluster).makeAgentConfig [] []).1 :
        gocbcore.AgentConfig Unit Unit Unit).TlsConfig :=
  ⟨by decide, by decide, by decide,
   (@Manager_agrees_with_agentConfig Unit Unit Unit ⟨⟨"http", [⟨"10.0.0.1", 9000⟩]⟩, 0, 0⟩
     [] [] [] []).2.1⟩

end Gocb
